import Mathlib

/-!
Verification of the pap-heartbeat-collector core: the in-memory heartbeat
store (`src/store.ts`), the outbound alert client (`src/alert-client.ts`)
and the zombie-detection scan loop (`zombie-detector`).  JavaScript `Map`s
are embedded as association lists keyed by `String`; wall-clock timestamps
(milliseconds since epoch) are embedded as `Int`; the network outcome of a
delivery attempt is an explicit boolean parameter.
-/

namespace PapHeartbeat

/-! ### Association-list model of a JavaScript Map -/

/-- `Map.get`: the value stored under key `k`, if any. -/
def findAssoc {α : Type} : List (String × α) → String → Option α
  | [], _ => none
  | p :: rest, k => if p.1 = k then some p.2 else findAssoc rest k

/-- `Map.set`: replace the value under key `k` if present, append otherwise. -/
def setAssoc {α : Type} : List (String × α) → String → α → List (String × α)
  | [], k, v => [(k, v)]
  | p :: rest, k, v => if p.1 = k then (k, v) :: rest else p :: setAssoc rest k v

/-! ### `config.ts` -/

/-- PAP-RFC-001 §8.1 heartbeat modes. -/
inductive HeartbeatMode where
  | EMERGENCY
  | IDLE
  | SLEEP
deriving DecidableEq, Repr

/-- PAP-RFC-001 §8.1 heartbeat intervals (milliseconds). -/
def HEARTBEAT_INTERVALS : HeartbeatMode → Int
  | .EMERGENCY => 5000
  | .IDLE => 30000
  | .SLEEP => 900000

/-- Grace multiplier before marking an agent unhealthy. -/
def ZOMBIE_GRACE_MULTIPLIER : Int := 2

/-- The collector configuration (an absent STATION_ALERT_URL / _KEY is the
empty string, as `loadConfig` defaults them to `''`). -/
structure Config where
  stationAlertUrl : String
  stationAlertKey : String
  clusterId : String
  zombieCheckIntervalMs : Int
  alertQueueMaxSize : Nat
  alertQueueTtlMs : Int
deriving Repr

/-! ### `store.ts` -/

/-- One agent's record in the heartbeat store. -/
structure HeartbeatEntry where
  agent_uuid : String
  agent_name : String
  mode : HeartbeatMode
  uptime_seconds : Int
  last_seen : Int
  first_seen : Int
  consecutive_heartbeats : Nat
  observation_mode : Bool
  previous_mode : Option HeartbeatMode := none
  previous_uptime : Option Int := none
deriving DecidableEq, Repr

/-- The store: the `agents` map and the `observationCallbacks` map.  A
callback set is embedded as a duplicate-free list of callback identifiers. -/
structure HeartbeatStore where
  agents : List (String × HeartbeatEntry)
  observationCallbacks : List (String × List Nat)
deriving DecidableEq, Repr

def HeartbeatStore.empty : HeartbeatStore := ⟨[], []⟩

/-- `this.agents.get(agentUuid)`. -/
def getEntry (st : HeartbeatStore) (agentUuid : String) : Option HeartbeatEntry :=
  findAssoc st.agents agentUuid

/-- Result record of `recordHeartbeat`. -/
structure RecordResult where
  isNew : Bool
  restartDetected : Bool
deriving DecidableEq, Repr

/-- `HeartbeatStore.recordHeartbeat`: create the record on first contact,
otherwise shift mode/uptime into the `previous_*` fields, apply the new
values, bump `last_seen` and `consecutive_heartbeats`; `restartDetected`
when the stored uptime exceeds the reported one by more than 10 seconds. -/
def recordHeartbeat (st : HeartbeatStore) (agentUuid agentName : String)
    (mode : HeartbeatMode) (uptimeSeconds : Int) (now : Int) :
    HeartbeatStore × RecordResult :=
  match getEntry st agentUuid with
  | some existing =>
      let restartDetected : Bool := decide (existing.uptime_seconds > uptimeSeconds + 10)
      let updated : HeartbeatEntry :=
        { existing with
          previous_mode := some existing.mode
          previous_uptime := some existing.uptime_seconds
          mode := mode
          uptime_seconds := uptimeSeconds
          last_seen := now
          consecutive_heartbeats := existing.consecutive_heartbeats + 1 }
      ({ st with agents := setAssoc st.agents agentUuid updated },
       { isNew := false, restartDetected := restartDetected })
  | none =>
      let entry : HeartbeatEntry :=
        { agent_uuid := agentUuid
          agent_name := agentName
          mode := mode
          uptime_seconds := uptimeSeconds
          last_seen := now
          first_seen := now
          consecutive_heartbeats := 1
          observation_mode := false }
      ({ st with agents := setAssoc st.agents agentUuid entry },
       { isNew := true, restartDetected := false })

/-- `HeartbeatStore.isHealthy`: elapsed time since last heartbeat is below
the grace-adjusted interval for the agent's mode. -/
def isHealthy (entry : HeartbeatEntry) (now : Int) : Bool :=
  let interval := HEARTBEAT_INTERVALS entry.mode
  let deadline := interval * ZOMBIE_GRACE_MULTIPLIER
  let elapsed := now - entry.last_seen
  decide (elapsed < deadline)

/-- `HeartbeatStore.getUnhealthyAgents`: every stored record whose health
verdict is false at the time of the call. -/
def getUnhealthyAgents (st : HeartbeatStore) (now : Int) : List HeartbeatEntry :=
  (st.agents.map (fun p => p.2)).filter (fun e => !(isHealthy e now))

/-- `HeartbeatStore.enableObservation`: add the callback to the agent's
callback set and mark the record observed — but only if the record already
exists at subscription time. -/
def enableObservation (st : HeartbeatStore) (agentUuid : String) (cb : Nat) :
    HeartbeatStore :=
  let callbacks := (findAssoc st.observationCallbacks agentUuid).getD []
  let callbacks2 := if cb ∈ callbacks then callbacks else callbacks ++ [cb]
  let ocb := setAssoc st.observationCallbacks agentUuid callbacks2
  let agents2 :=
    match getEntry st agentUuid with
    | some entry => setAssoc st.agents agentUuid { entry with observation_mode := true }
    | none => st.agents
  { agents := agents2, observationCallbacks := ocb }

/-- The cleanup closure returned by `enableObservation`: remove the callback
from the set; when the set becomes empty, drop the map entry and clear the
record's observed flag. -/
def disableObservation (st : HeartbeatStore) (agentUuid : String) (cb : Nat) :
    HeartbeatStore :=
  match findAssoc st.observationCallbacks agentUuid with
  | none => st
  | some callbacks =>
    let callbacks2 := callbacks.erase cb
    if callbacks2 = [] then
      { agents :=
          (match getEntry st agentUuid with
           | some entry => setAssoc st.agents agentUuid { entry with observation_mode := false }
           | none => st.agents),
        observationCallbacks := st.observationCallbacks.filter (fun p => !(p.1 = agentUuid : Bool)) }
    else
      { st with observationCallbacks := setAssoc st.observationCallbacks agentUuid callbacks2 }

/-- Arguments of one inbound heartbeat report. -/
structure ReportArgs where
  agentName : String
  mode : HeartbeatMode
  uptimeSeconds : Int
  now : Int
deriving Repr

/-- Fold a sequence of reports for one agent through `recordHeartbeat`. -/
def runReports (st : HeartbeatStore) (agentUuid : String) (reports : List ReportArgs) :
    HeartbeatStore :=
  reports.foldl
    (fun s r => (recordHeartbeat s agentUuid r.agentName r.mode r.uptimeSeconds r.now).1) st

/-! ### `alert-client.ts` -/

/-- The four alert kinds. -/
inductive AlertType where
  | AGENT_DEATH
  | EMERGENCY_MODE
  | RESTART_DETECTED
  | MODE_CHANGE
deriving DecidableEq, Repr

/-- An outbound cluster alert.  The kind-specific `details` payload is
embedded as a string map; it plays no role in dedup/queue behaviour. -/
structure ClusterAlert where
  type : AlertType
  agent_uuid : String
  agent_name : String
  cluster_id : String
  severity : String
  details : List (String × String)
  timestamp : Int
deriving DecidableEq, Repr

/-- One entry of the retry queue. -/
structure QueuedAlert where
  alert : ClusterAlert
  queuedAt : Int
  attempts : Nat
deriving DecidableEq, Repr

/-- The mutable state of an `AlertClient`: the retry queue, the
`isProcessing` flag and the per-agent last-alert dedup map. -/
structure AlertClientState where
  queue : List QueuedAlert
  isProcessing : Bool
  lastAlertByAgent : List (String × AlertType × Int)
deriving DecidableEq, Repr

/-- A freshly constructed `AlertClient`. -/
def AlertClientState.init : AlertClientState := ⟨[], false, []⟩

/-- Deduplication window: one minute. -/
def DEDUP_WINDOW_MS : Int := 60000

/-- `AlertClient.isDuplicate`: the alert repeats the kind of the most recent
recorded alert for the same agent within the dedup window. -/
def isDuplicate (st : AlertClientState) (alert : ClusterAlert) (now : Int) : Bool :=
  match findAssoc st.lastAlertByAgent alert.agent_uuid with
  | none => false
  | some last =>
      let withinWindow := decide (now - last.2 < DEDUP_WINDOW_MS)
      let sameType := decide (last.1 = alert.type)
      withinWindow && sameType

/-- `AlertClient.queueAlert`: evict the oldest entry when the queue is at or
above the configured maximum, then append the alert with `attempts := 1`. -/
def queueAlert (cfg : Config) (st : AlertClientState) (alert : ClusterAlert) (now : Int) :
    AlertClientState :=
  let q := if st.queue.length ≥ cfg.alertQueueMaxSize then st.queue.tail else st.queue
  { st with queue := q ++ [{ alert := alert, queuedAt := now, attempts := 1 }] }

/-- `AlertClient.sendAlert`: silently drop duplicates; record the dedup
entry; with no station endpoint configured, log only; otherwise attempt
delivery (outcome `sendSuccess` supplied by the environment) and queue the
alert on failure. -/
def sendAlert (cfg : Config) (st : AlertClientState) (alert : ClusterAlert) (now : Int)
    (sendSuccess : Bool) : AlertClientState :=
  if isDuplicate st alert now then st
  else
    let st1 := { st with
      lastAlertByAgent := setAssoc st.lastAlertByAgent alert.agent_uuid (alert.type, now) }
    if cfg.stationAlertUrl = "" || cfg.stationAlertKey = "" then st1
    else if sendSuccess then st1
    else queueAlert cfg st1 alert now

/-- `min(5000 * 2^attempts, 60000)` — the backoff delay formula. -/
def backoffDelay (attempts : Nat) : Nat := min (5000 * 2 ^ attempts) 60000

/-- `this.queue[0]?.attempts || 0`. -/
def headAttempts : List QueuedAlert → Nat
  | [] => 0
  | q :: _ => q.attempts

/-- `AlertClient.scheduleQueueProcessing`: the delay of the timer it arms,
or `none` when it returns without arming one (already processing or empty
queue). -/
def scheduleDelay (st : AlertClientState) : Option Nat :=
  if st.isProcessing || st.queue.isEmpty then none
  else some (backoffDelay (headAttempts st.queue))

/-- The loop body of `AlertClient.processQueue`: drop entries past their
TTL, attempt delivery of the rest; a failed entry stays with its attempt
counter incremented. -/
def drainPass (cfg : Config) (q : List QueuedAlert) (now : Int)
    (succ : QueuedAlert → Bool) : List QueuedAlert :=
  match q with
  | [] => []
  | item :: rest =>
    if now - item.queuedAt > cfg.alertQueueTtlMs then drainPass cfg rest now succ
    else if succ item then drainPass cfg rest now succ
    else { item with attempts := item.attempts + 1 } :: drainPass cfg rest now succ

/-- `AlertClient.processQueue`: guarded by `isProcessing`; runs one drain
pass, then calls `scheduleQueueProcessing` while `isProcessing` is still
set (the `finally` clears the flag only afterwards), and returns the state
together with the delay of any timer armed by that call. -/
def processQueue (cfg : Config) (st : AlertClientState) (now : Int)
    (succ : QueuedAlert → Bool) : AlertClientState × Option Nat :=
  if st.isProcessing || st.queue.isEmpty then (st, none)
  else
    let stBusy := { st with isProcessing := true }
    let remaining := drainPass cfg stBusy.queue now succ
    let st2 := { stBusy with queue := remaining }
    let sched := if remaining.isEmpty then none else scheduleDelay st2
    ({ st2 with isProcessing := false }, sched)

/-- One externally triggered operation on an `AlertClient`. -/
inductive ACOp where
  | send : ClusterAlert → Int → Bool → ACOp
  | drain : Int → (QueuedAlert → Bool) → ACOp

/-- Apply one operation to the client state. -/
def applyOp (cfg : Config) (st : AlertClientState) : ACOp → AlertClientState
  | .send alert now succ => sendAlert cfg st alert now succ
  | .drain now succ => (processQueue cfg st now succ).1

/-- Run a sequence of operations from a fresh client. -/
def runOps (cfg : Config) (ops : List ACOp) : AlertClientState :=
  ops.foldl (applyOp cfg) AlertClientState.init

/-! ### `zombie-detector.ts` -/

/-- The first loop of `ZombieDetector.check`: walk the unhealthy agents;
for each one not yet in the alerted set, dispatch an AGENT_DEATH alert and
add it.  Returns the updated set and the uuids alerted, in dispatch order. -/
def alertUnhealthy (unhealthy : List HeartbeatEntry) (alerted : List String) :
    List String × List String :=
  match unhealthy with
  | [] => (alerted, [])
  | e :: rest =>
    if e.agent_uuid ∈ alerted then alertUnhealthy rest alerted
    else
      let r := alertUnhealthy rest (e.agent_uuid :: alerted)
      (r.1, e.agent_uuid :: r.2)

/-- The second loop of `ZombieDetector.check`: remove from the alerted set
every agent whose health verdict is true again. -/
def clearRecovered (agents : List HeartbeatEntry) (now : Int) (alerted : List String) :
    List String :=
  alerted.filter (fun id => !(agents.any (fun e => isHealthy e now && e.agent_uuid = id)))

/-- `ZombieDetector.check` over a snapshot of the store's entries at scan
time `now`: alert newly unhealthy agents, then clear recovered ones. -/
def zombieCheck (agents : List HeartbeatEntry) (now : Int) (alerted : List String) :
    List String × List String :=
  let unhealthy := getUnhealthyAgents ⟨agents.map (fun e => (e.agent_uuid, e)), []⟩ now
  let r := alertUnhealthy unhealthy alerted
  (clearRecovered agents now r.1, r.2)

/-- One periodic scan: the store's entries and the scan's wall-clock time. -/
structure Scan where
  agents : List HeartbeatEntry
  now : Int

/-- Run a sequence of scans, concatenating the dispatched alert uuids. -/
def runChecks : List Scan → List String → List String × List String
  | [], alerted => (alerted, [])
  | s :: rest, alerted =>
    let r := zombieCheck s.agents s.now alerted
    let r2 := runChecks rest r.1
    (r2.1, r.2 ++ r2.2)

/-- Occurrence count of a uuid in a dispatch log. -/
def countOcc (a : String) : List String → Nat
  | [] => 0
  | b :: rest => (if b = a then 1 else 0) + countOcc a rest

/-- The scan snapshot holds an entry for agent `a` and every such entry has
a false health verdict (the agent is unhealthy throughout the scan). -/
def agentUnhealthyIn (a : String) (agents : List HeartbeatEntry) (now : Int) : Prop :=
  (∃ e ∈ agents, e.agent_uuid = a) ∧
    ∀ e ∈ agents, e.agent_uuid = a → isHealthy e now = false

/-- The scan snapshot holds an entry for agent `a` and every such entry has
a true health verdict (the agent has recovered). -/
def agentHealthyIn (a : String) (agents : List HeartbeatEntry) (now : Int) : Prop :=
  (∃ e ∈ agents, e.agent_uuid = a) ∧
    ∀ e ∈ agents, e.agent_uuid = a → isHealthy e now = true

/-! ### Concrete fixtures used by counterexamples and witnesses -/

/-- A configuration with a station endpoint configured. -/
def cfgStation : Config := ⟨"u", "k", "c", 10000, 100, 300000⟩

/-- A configuration with STATION_ALERT_URL / STATION_ALERT_KEY unset. -/
def cfgNoStation : Config := ⟨"", "", "c", 10000, 100, 300000⟩

/-- An AGENT_DEATH alert for agent `a`. -/
def alertDeathA : ClusterAlert := ⟨.AGENT_DEATH, "a", "n", "c", "critical", [], 0⟩

/-- An EMERGENCY_MODE alert for the same agent `a`. -/
def alertEmergencyA : ClusterAlert := ⟨.EMERGENCY_MODE, "a", "n", "c", "warning", [], 1000⟩

/-- A second AGENT_DEATH alert for agent `a`, emitted two seconds after the
first. -/
def alertDeathA2 : ClusterAlert := ⟨.AGENT_DEATH, "a", "n", "c", "critical", [], 2000⟩

/-- The dispatcher state after an AGENT_DEATH alert for agent `a` at t=0
(delivery fails, the alert is queued). -/
def sendCex1 : AlertClientState := sendAlert cfgStation AlertClientState.init alertDeathA 0 false

/-- ... then an EMERGENCY_MODE alert for the same agent at t=1000. -/
def sendCex2 : AlertClientState := sendAlert cfgStation sendCex1 alertEmergencyA 1000 false

/-- ... then a second AGENT_DEATH alert for the same agent at t=2000,
2 seconds after the first one. -/
def sendCex3 : AlertClientState := sendAlert cfgStation sendCex2 alertDeathA2 2000 false

/-- The store reached by subscribing to an unknown agent `a` and then
receiving the agent's first report. -/
def lateRecordStore : HeartbeatStore :=
  (recordHeartbeat (enableObservation HeartbeatStore.empty "a" 0) "a" "n" .IDLE 0 0).1

/-- An IDLE agent `a` last seen at t=0. -/
def entryBad : HeartbeatEntry := ⟨"a", "n", .IDLE, 0, 0, 0, 1, false, none, none⟩

/-- The same agent after a fresh report at t=90000. -/
def entryGood : HeartbeatEntry := ⟨"a", "n", .IDLE, 0, 90000, 0, 2, false, none, none⟩

/-! ### Theorems -/

/-- Looking up the key just written into a Map finds the written value. -/
theorem findAssoc_setAssoc_self {α : Type} (l : List (String × α)) (k : String) (v : α) :
    findAssoc (setAssoc l k v) k = some v := by
  induction l with
  | nil => simp [setAssoc, findAssoc]
  | cons p rest ih =>
    by_cases hp : p.1 = k
    · simp [setAssoc, hp, findAssoc]
    · simp [setAssoc, hp, findAssoc, ih]

/-- **C3** — the health verdict is exactly
`now - lastSeenAt < 2 * interval(mode)` with the fixed interval table
(EMERGENCY 5000 ms, IDLE 30000 ms, SLEEP 900000 ms), `getUnhealthyAgents`
returns exactly the stored records falsifying that predicate at call time,
and an IDLE agent seen 59 s ago is healthy while one seen 61 s ago is not. -/
theorem healthVerdict_characterisation (e : HeartbeatEntry) (now : Int)
    (st : HeartbeatStore) :
    (isHealthy e now = true ↔ now - e.last_seen < 2 * HEARTBEAT_INTERVALS e.mode)
    ∧ HEARTBEAT_INTERVALS .EMERGENCY = 5000
    ∧ HEARTBEAT_INTERVALS .IDLE = 30000
    ∧ HEARTBEAT_INTERVALS .SLEEP = 900000
    ∧ (∀ x, x ∈ getUnhealthyAgents st now ↔
        x ∈ st.agents.map (fun p => p.2)
          ∧ ¬(now - x.last_seen < 2 * HEARTBEAT_INTERVALS x.mode))
    ∧ isHealthy ⟨"a", "n", .IDLE, 0, 0, 0, 1, false, none, none⟩ 59000 = true
    ∧ isHealthy ⟨"a", "n", .IDLE, 0, 0, 0, 1, false, none, none⟩ 61000 = false := by
  refine ⟨?_, rfl, rfl, rfl, ?_, by decide, by decide⟩
  · simp [isHealthy, ZOMBIE_GRACE_MULTIPLIER, mul_comm]
  · intro x
    simp [getUnhealthyAgents, List.mem_filter, isHealthy, ZOMBIE_GRACE_MULTIPLIER, mul_comm]

/-- **C4** — `recordHeartbeat` reports `restartDetected = true` exactly when
a record for the agent already exists and its stored uptime exceeds the
reported one by strictly more than 10 seconds; in particular a first report
for an unknown agent never reports a restart. -/
theorem restartDetected_iff (st : HeartbeatStore) (agentUuid agentName : String)
    (mode : HeartbeatMode) (uptimeSeconds now : Int) :
    (recordHeartbeat st agentUuid agentName mode uptimeSeconds now).2.restartDetected = true
      ↔ ∃ e, getEntry st agentUuid = some e ∧ e.uptime_seconds > uptimeSeconds + 10 := by
  cases h : getEntry st agentUuid with
  | none => simp [recordHeartbeat, h]
  | some e => simp [recordHeartbeat, h]

/-- After any run of reports, an agent already present with record `e` stays
present; its lifetime counter grows by the number of reports and its
`last_seen` is folded through the arrival timestamps. -/
theorem runReports_existing (agentUuid : String) (reports : List ReportArgs) :
    ∀ (st : HeartbeatStore) (e : HeartbeatEntry), getEntry st agentUuid = some e →
      ∃ e', getEntry (runReports st agentUuid reports) agentUuid = some e'
        ∧ e'.consecutive_heartbeats = e.consecutive_heartbeats + reports.length
        ∧ e'.last_seen = reports.foldl (fun _ r => r.now) e.last_seen := by
  induction reports with
  | nil => intro st e h; exact ⟨e, h, rfl, rfl⟩
  | cons r rest ih =>
    intro st e h
    have hstep : getEntry (recordHeartbeat st agentUuid r.agentName r.mode r.uptimeSeconds r.now).1
        agentUuid = some
        { e with
          previous_mode := some e.mode
          previous_uptime := some e.uptime_seconds
          mode := r.mode
          uptime_seconds := r.uptimeSeconds
          last_seen := r.now
          consecutive_heartbeats := e.consecutive_heartbeats + 1 } := by
      have h' : findAssoc st.agents agentUuid = some e := h
      simp [recordHeartbeat, h', getEntry, findAssoc_setAssoc_self]
    obtain ⟨e', h1, h2, h3⟩ := ih _ _ hstep
    simp only at h2 h3
    refine ⟨e', h1, ?_, ?_⟩
    · simp only [List.length_cons]
      omega
    · simpa using h3

/-- `List.foldl` that keeps only the last timestamp computes the timestamp
of the last report. -/
theorem foldl_now_getLast (l : List ReportArgs) :
    ∀ (r : ReportArgs) (x : Int) (h : r :: l ≠ []),
      (r :: l).foldl (fun _ r' => r'.now) x = ((r :: l).getLast h).now := by
  induction l with
  | nil => intro r x h; rfl
  | cons r' rest ih =>
    intro r x h
    have := ih r' r.now (by simp)
    simpa [List.foldl_cons, List.getLast] using this

/-- **C8** — after N ≥ 1 reports for one agent (no intervening removal),
`consecutive_heartbeats` equals N and `last_seen` equals the arrival
timestamp of the most recent report. -/
theorem consecutiveReports_counts (st : HeartbeatStore) (agentUuid : String)
    (reports : List ReportArgs) (h0 : getEntry st agentUuid = none)
    (hne : reports ≠ []) :
    ∃ e, getEntry (runReports st agentUuid reports) agentUuid = some e
      ∧ e.consecutive_heartbeats = reports.length
      ∧ e.last_seen = (reports.getLast hne).now := by
  cases reports with
  | nil => exact absurd rfl hne
  | cons r rest =>
    have hstep : getEntry (recordHeartbeat st agentUuid r.agentName r.mode r.uptimeSeconds r.now).1
        agentUuid = some
        { agent_uuid := agentUuid, agent_name := r.agentName, mode := r.mode,
          uptime_seconds := r.uptimeSeconds, last_seen := r.now, first_seen := r.now,
          consecutive_heartbeats := 1, observation_mode := false } := by
      have h' : findAssoc st.agents agentUuid = none := h0
      simp [recordHeartbeat, h', getEntry, findAssoc_setAssoc_self]
    obtain ⟨e', h1, h2, h3⟩ := runReports_existing agentUuid rest _ _ hstep
    refine ⟨e', h1, ?_, ?_⟩
    · simpa [Nat.add_comm] using h2
    · rw [h3]
      exact foldl_now_getLast rest r r.now hne

/-- **C8 witness** — two reports for a fresh agent leave a record with
counter 2 and `last_seen` equal to the second arrival time. -/
theorem consecutiveReports_counts_witness :
    ∃ e, getEntry (runReports HeartbeatStore.empty "a"
          [⟨"n", .IDLE, 5, 100⟩, ⟨"n", .IDLE, 6, 200⟩]) "a" = some e
      ∧ e.consecutive_heartbeats = 2
      ∧ e.last_seen = 200 :=
  consecutiveReports_counts HeartbeatStore.empty "a"
    [⟨"n", .IDLE, 5, 100⟩, ⟨"n", .IDLE, 6, 200⟩] rfl (by simp)

/-- One enqueue keeps the queue length within the configured maximum. -/
theorem queueAlert_length_le (cfg : Config) (st : AlertClientState)
    (alert : ClusterAlert) (now : Int) (hmax : 1 ≤ cfg.alertQueueMaxSize)
    (h : st.queue.length ≤ cfg.alertQueueMaxSize) :
    (queueAlert cfg st alert now).queue.length ≤ cfg.alertQueueMaxSize := by
  unfold queueAlert
  by_cases hge : st.queue.length ≥ cfg.alertQueueMaxSize
  · simp [hge, List.length_tail]
    omega
  · simp [hge]
    omega

/-- **C6** — starting from an empty queue with maximum ≥ 1, the queue length
after any sequence of enqueues never exceeds the configured maximum, and an
enqueue against a queue at or above the maximum evicts the head before
appending the new entry at the tail. -/
theorem queue_bounded (cfg : Config) (hmax : 1 ≤ cfg.alertQueueMaxSize)
    (items : List (ClusterAlert × Int)) :
    (items.foldl (fun st it => queueAlert cfg st it.1 it.2)
        AlertClientState.init).queue.length ≤ cfg.alertQueueMaxSize
    ∧ ∀ (st : AlertClientState) (alert : ClusterAlert) (now : Int),
        cfg.alertQueueMaxSize ≤ st.queue.length →
        (queueAlert cfg st alert now).queue
          = st.queue.tail ++ [{ alert := alert, queuedAt := now, attempts := 1 }] := by
  constructor
  · have main : ∀ (l : List (ClusterAlert × Int)) (st : AlertClientState),
        st.queue.length ≤ cfg.alertQueueMaxSize →
        (l.foldl (fun st it => queueAlert cfg st it.1 it.2) st).queue.length
          ≤ cfg.alertQueueMaxSize := by
      intro l
      induction l with
      | nil => intro st h; exact h
      | cons it rest ih =>
        intro st h
        exact ih _ (queueAlert_length_le cfg st it.1 it.2 hmax h)
    exact main items AlertClientState.init (by simp [AlertClientState.init])
  · intro st alert now h
    simp [queueAlert, h]

/-- **C6 witness** — with maximum 2, three enqueues leave length ≤ 2, and an
enqueue on a full concrete queue evicts the head and appends at the tail. -/
theorem queue_bounded_witness :
    ([(alertDeathA, (0 : Int)), (alertEmergencyA, 1), (alertDeathA2, 2)].foldl
        (fun st it => queueAlert ⟨"u", "k", "c", 10000, 2, 300000⟩ st it.1 it.2)
        AlertClientState.init).queue.length ≤ 2
    ∧ (queueAlert ⟨"u", "k", "c", 10000, 2, 300000⟩
        ⟨[⟨alertDeathA, 0, 1⟩, ⟨alertEmergencyA, 1, 1⟩], false, []⟩ alertDeathA2 5).queue
        = [⟨alertEmergencyA, 1, 1⟩, ⟨alertDeathA2, 5, 1⟩] := by
  constructor
  · exact (queue_bounded ⟨"u", "k", "c", 10000, 2, 300000⟩ (by decide)
      [(alertDeathA, 0), (alertEmergencyA, 1), (alertDeathA2, 2)]).1
  · have := (queue_bounded ⟨"u", "k", "c", 10000, 2, 300000⟩ (by decide)
      [(alertDeathA, 0), (alertEmergencyA, 1), (alertDeathA2, 2)]).2
      ⟨[⟨alertDeathA, 0, 1⟩, ⟨alertEmergencyA, 1, 1⟩], false, []⟩ alertDeathA2 5 (by decide)
    simpa using this

/-- Every entry a drain pass keeps carries an attempt counter ≥ 1. -/
theorem drainPass_attempts_ge_one (cfg : Config) (now : Int)
    (succ : QueuedAlert → Bool) :
    ∀ (l : List QueuedAlert) (q : QueuedAlert), q ∈ drainPass cfg l now succ →
      1 ≤ q.attempts := by
  intro l
  induction l with
  | nil => intro q hq; simp [drainPass] at hq
  | cons item rest ih =>
    intro q hq
    by_cases httl : now - item.queuedAt > cfg.alertQueueTtlMs
    · exact ih q (by simpa [drainPass, httl] using hq)
    · by_cases hsucc : succ item = true
      · exact ih q (by simpa [drainPass, httl, hsucc] using hq)
      · rw [drainPass] at hq
        simp only [if_neg httl, if_neg hsucc, List.mem_cons] at hq
        rcases hq with rfl | hq
        · simp
        · exact ih q hq

/-- Enqueueing preserves the attempts-≥-1 invariant (the new entry enters
with `attempts = 1`). -/
theorem queueAlert_attempts_ge_one (cfg : Config) (st : AlertClientState)
    (alert : ClusterAlert) (now : Int)
    (h : ∀ q ∈ st.queue, 1 ≤ q.attempts) :
    ∀ q ∈ (queueAlert cfg st alert now).queue, 1 ≤ q.attempts := by
  intro q hq
  unfold queueAlert at hq
  simp only [List.mem_append, List.mem_singleton] at hq
  rcases hq with hq | rfl
  · by_cases hge : st.queue.length ≥ cfg.alertQueueMaxSize
    · simp only [hge, if_pos] at hq
      exact h q (List.mem_of_mem_tail hq)
    · simp only [hge, if_neg, not_false_eq_true] at hq
      exact h q hq
  · simp

/-- Every operation on the alert client preserves the attempts-≥-1
invariant. -/
theorem applyOp_attempts_ge_one (cfg : Config) (st : AlertClientState) (op : ACOp)
    (h : ∀ q ∈ st.queue, 1 ≤ q.attempts) :
    ∀ q ∈ (applyOp cfg st op).queue, 1 ≤ q.attempts := by
  cases op with
  | send alert now sendSuccess =>
    intro q hq
    unfold applyOp sendAlert at hq
    by_cases hdup : isDuplicate st alert now = true
    · simp only [hdup, if_pos] at hq
      exact h q hq
    · simp only [hdup, if_neg, not_false_eq_true] at hq
      by_cases hcfg : (cfg.stationAlertUrl = "" || cfg.stationAlertKey = "") = true
      · simp only [hcfg, if_pos] at hq
        exact h q hq
      · simp only [hcfg, if_neg, not_false_eq_true] at hq
        by_cases hsucc : sendSuccess = true
        · simp only [hsucc, if_pos] at hq
          exact h q hq
        · simp only [hsucc, if_neg, not_false_eq_true] at hq
          exact queueAlert_attempts_ge_one cfg _ alert now h q hq
  | drain now succ =>
    intro q hq
    unfold applyOp processQueue at hq
    by_cases hguard : (st.isProcessing || st.queue.isEmpty) = true
    · simp only [hguard, if_pos] at hq
      exact h q hq
    · simp only [hguard, if_neg, not_false_eq_true] at hq
      exact drainPass_attempts_ge_one cfg now succ st.queue q hq

/-- **C10** — after any operation sequence from a fresh client, every queued
entry has `attempts ≥ 1` (entries enter the queue with the counter already
at 1 and it only grows), so whenever `scheduleQueueProcessing` arms a timer
the delay is at least `min(5000 * 2^1, 60000) = 10000` ms — the nominal
5000 ms base delay is never the scheduled delay. -/
theorem queued_attempts_ge_one (cfg : Config) (ops : List ACOp) :
    (∀ q ∈ (runOps cfg ops).queue, 1 ≤ q.attempts)
    ∧ ∀ d : Nat, scheduleDelay (runOps cfg ops) = some d → 10000 ≤ d := by
  have hinv : ∀ q ∈ (runOps cfg ops).queue, 1 ≤ q.attempts := by
    have main : ∀ (l : List ACOp) (st : AlertClientState),
        (∀ q ∈ st.queue, 1 ≤ q.attempts) →
        ∀ q ∈ (l.foldl (applyOp cfg) st).queue, 1 ≤ q.attempts := by
      intro l
      induction l with
      | nil => intro st h; exact h
      | cons op rest ih =>
        intro st h
        exact ih _ (applyOp_attempts_ge_one cfg st op h)
    exact main ops AlertClientState.init (by simp [AlertClientState.init])
  refine ⟨hinv, ?_⟩
  intro d hd
  cases hq : (runOps cfg ops).queue with
  | nil => rw [scheduleDelay] at hd; simp [hq] at hd
  | cons q rest =>
    have h1 : 1 ≤ q.attempts := hinv q (by simp [hq])
    rw [scheduleDelay, hq] at hd
    by_cases hproc : (runOps cfg ops).isProcessing = true
    · simp [hproc] at hd
    · simp only [hproc, List.isEmpty_cons, Bool.or_false, Bool.false_or, if_neg,
        Bool.false_eq_true, not_false_eq_true, Option.some.injEq, headAttempts] at hd
      have h2 : (10000 : Nat) ≤ backoffDelay q.attempts := by
        unfold backoffDelay
        have h3 : (10000 : Nat) ≤ 5000 * 2 ^ q.attempts := by
          calc (10000 : Nat) = 5000 * 2 ^ 1 := by norm_num
          _ ≤ 5000 * 2 ^ q.attempts :=
              Nat.mul_le_mul_left 5000 (Nat.pow_le_pow_right (by norm_num) h1)
        exact le_min h3 (by norm_num)
      exact hd ▸ h2

/-- **C10 witness** — one failed send from a fresh client queues one entry
with `attempts = 1`, and the timer the enqueue arms has delay 10000 ms. -/
theorem queued_attempts_ge_one_witness :
    scheduleDelay (runOps cfgStation [.send alertDeathA 0 false]) = some 10000
    ∧ 10000 ≤ 10000 :=
  ⟨by decide, (queued_attempts_ge_one cfgStation [.send alertDeathA 0 false]).2 10000 (by decide)⟩

/-- **C9** — `processQueue` never arms a retry timer: the internal call to
`scheduleQueueProcessing` happens while `isProcessing` is still set, so it
early-returns for every input.  On the concrete failing input — one
fresh queued alert whose delivery attempt fails — the drain pass ends with
the queue non-empty (attempt counter bumped to 2) and still nothing is
scheduled, where the spec expects a drain after `min(5000 * 2^2, 60000)` ms. -/
theorem drain_never_reschedules :
    (∀ (cfg : Config) (st : AlertClientState) (now : Int) (succ : QueuedAlert → Bool),
        (processQueue cfg st now succ).2 = none)
    ∧ (processQueue cfgStation ⟨[⟨alertDeathA, 0, 1⟩], false, []⟩ 0
        (fun _ => false)).1.queue = [⟨alertDeathA, 0, 2⟩]
    ∧ (processQueue cfgStation ⟨[⟨alertDeathA, 0, 1⟩], false, []⟩ 0
        (fun _ => false)).2 = none := by
  refine ⟨?_, by decide, by decide⟩
  intro cfg st now succ
  unfold processQueue
  by_cases hguard : (st.isProcessing || st.queue.isEmpty) = true
  · simp [hguard]
  · simp only [hguard, if_neg, not_false_eq_true]
    by_cases hrem : (drainPass cfg st.queue now succ).isEmpty = true
    · simp [hrem]
    · simp [hrem, scheduleDelay]

/-- **C2 counterexample** — a non-duplicate alert sent with no station
endpoint configured is *not* queued: the queue stays empty. -/
theorem no_endpoint_not_queued_cex :
    isDuplicate AlertClientState.init alertDeathA 0 = false
    ∧ (cfgNoStation.stationAlertUrl = "" ∧ cfgNoStation.stationAlertKey = "")
    ∧ (sendAlert cfgNoStation AlertClientState.init alertDeathA 0 false).queue = [] := by
  decide

/-- **C2 amended** — with no station endpoint configured, a non-duplicate
notify records the dedup entry and returns without touching the retry
queue (it only logs); nothing is queued in this case. -/
theorem no_endpoint_logs_only (cfg : Config) (st : AlertClientState)
    (alert : ClusterAlert) (now : Int) (sendSuccess : Bool)
    (hcfg : cfg.stationAlertUrl = "" ∨ cfg.stationAlertKey = "")
    (hnd : isDuplicate st alert now = false) :
    (sendAlert cfg st alert now sendSuccess).queue = st.queue
    ∧ (sendAlert cfg st alert now sendSuccess).lastAlertByAgent
        = setAssoc st.lastAlertByAgent alert.agent_uuid (alert.type, now) := by
  unfold sendAlert
  rw [hnd]
  rcases hcfg with h | h <;> simp [h]

/-- **C2 amended witness** — the amended statement evaluated on the concrete
input of the counterexample. -/
theorem no_endpoint_logs_only_witness :
    (sendAlert cfgNoStation AlertClientState.init alertDeathA 0 false).queue = []
    ∧ (sendAlert cfgNoStation AlertClientState.init alertDeathA 0 false).lastAlertByAgent
        = [("a", .AGENT_DEATH, 0)] :=
  no_endpoint_logs_only cfgNoStation AlertClientState.init alertDeathA 0 false
    (Or.inl rfl) (by decide)

/-- **C1 counterexample** — per-kind suppression does not survive
interleaving: an AGENT_DEATH for agent `a` is sent at t=0, an
EMERGENCY_MODE for the same agent at t=1000, and a second AGENT_DEATH at
t=2000 — well inside the 60 s window of the first — is *not* a no-op: it is
queued (queue grows from 2 to 3 entries) and the dispatcher state changes. -/
theorem dedup_interleaving_cex :
    ((2000 : Int) - 0 < DEDUP_WINDOW_MS)
    ∧ sendCex1.lastAlertByAgent = [("a", .AGENT_DEATH, 0)]
    ∧ isDuplicate sendCex2 alertDeathA2 2000 = false
    ∧ sendCex2.queue.length = 2
    ∧ sendCex3.queue.length = 3
    ∧ sendCex3 ≠ sendCex2 := by
  decide

/-- **C1 amended** — deduplication tracks only the most recent alert per
agent: a notify whose kind matches the last recorded alert for the agent
within 60 s is a silent no-op (state unchanged); a last recorded alert of a
different kind, or one outside the window, defeats suppression even if an
alert of the same kind was sent within the window earlier. -/
theorem dedup_tracks_last_alert_only (cfg : Config) (st : AlertClientState)
    (alert : ClusterAlert) (now t0 : Int) (sendSuccess : Bool) (k : AlertType)
    (hlast : findAssoc st.lastAlertByAgent alert.agent_uuid = some (k, t0)) :
    (k = alert.type → now - t0 < DEDUP_WINDOW_MS →
        sendAlert cfg st alert now sendSuccess = st)
    ∧ (k ≠ alert.type → isDuplicate st alert now = false)
    ∧ (¬(now - t0 < DEDUP_WINDOW_MS) → isDuplicate st alert now = false) := by
  refine ⟨?_, ?_, ?_⟩
  · intro hk hw
    have hdup : isDuplicate st alert now = true := by
      simp [isDuplicate, hlast, hw, hk]
    simp [sendAlert, hdup]
  · intro hk
    simp [isDuplicate, hlast, hk]
  · intro hw
    simp [isDuplicate, hlast, hw]

/-- **C1 amended witness** — with the last recorded alert for agent `a`
being AGENT_DEATH at t=0, a second AGENT_DEATH at t=2000 is a no-op. -/
theorem dedup_tracks_last_alert_only_witness :
    sendAlert cfgStation ⟨[], false, [("a", .AGENT_DEATH, 0)]⟩ alertDeathA2 2000 false
      = ⟨[], false, [("a", .AGENT_DEATH, 0)]⟩ :=
  (dedup_tracks_last_alert_only cfgStation ⟨[], false, [("a", .AGENT_DEATH, 0)]⟩
    alertDeathA2 2000 0 false .AGENT_DEATH rfl).1 rfl (by decide)

/-- **C7 counterexample** — subscribe to agent `a` before its first report;
the record created by that report has `observation_mode = false` even
though one subscriber is still registered for `a`. -/
theorem observed_false_after_late_record_cex :
    (getEntry lateRecordStore "a").map (fun e => e.observation_mode) = some false
    ∧ findAssoc lateRecordStore.observationCallbacks "a" = some [0] := by
  decide

/-- **C7 amended** — subscribing marks the record observed only when it
already exists at subscribe time; unsubscribing the last subscriber clears
the flag while the record persists; a record created by a report arriving
after the subscription starts with `observation_mode = false`. -/
theorem observed_flag_behaviour (st : HeartbeatStore) (agentUuid agentName : String)
    (cb : Nat) (mode : HeartbeatMode) (uptimeSeconds now : Int) :
    (∀ e, getEntry st agentUuid = some e →
        getEntry (enableObservation st agentUuid cb) agentUuid
          = some { e with observation_mode := true })
    ∧ (∀ e, findAssoc st.observationCallbacks agentUuid = some [cb] →
        getEntry st agentUuid = some e →
        getEntry (disableObservation st agentUuid cb) agentUuid
          = some { e with observation_mode := false })
    ∧ (getEntry st agentUuid = none →
        ∃ e, getEntry ((recordHeartbeat st agentUuid agentName mode
              uptimeSeconds now).1) agentUuid = some e
          ∧ e.observation_mode = false) := by
  refine ⟨?_, ?_, ?_⟩
  · intro e h
    have h' : findAssoc st.agents agentUuid = some e := h
    simp [enableObservation, h', getEntry, findAssoc_setAssoc_self]
  · intro e hcb h
    have h' : findAssoc st.agents agentUuid = some e := h
    have herase : ([cb] : List Nat).erase cb = [] := by simp
    simp [disableObservation, hcb, herase, h', getEntry, findAssoc_setAssoc_self]
  · intro h
    have h' : findAssoc st.agents agentUuid = none := h
    refine ⟨⟨agentUuid, agentName, mode, uptimeSeconds, now, now, 1, false, none, none⟩,
      ?_, rfl⟩
    simp [recordHeartbeat, h', getEntry, findAssoc_setAssoc_self]

/-- **C7 amended witness** — the three amended behaviours evaluated on
concrete stores: subscribe-on-existing sets the flag, last-unsubscribe
clears it with the record persisting, and report-after-subscribe creates an
unobserved record. -/
theorem observed_flag_behaviour_witness :
    getEntry (enableObservation
        (recordHeartbeat HeartbeatStore.empty "a" "n" .IDLE 0 0).1 "a" 0) "a"
      = some ⟨"a", "n", .IDLE, 0, 0, 0, 1, true, none, none⟩
    ∧ getEntry (disableObservation
        (enableObservation (recordHeartbeat HeartbeatStore.empty "a" "n" .IDLE 0 0).1 "a" 0)
        "a" 0) "a"
      = some ⟨"a", "n", .IDLE, 0, 0, 0, 1, false, none, none⟩
    ∧ ∃ e, getEntry ((recordHeartbeat (enableObservation HeartbeatStore.empty "a" 0)
          "a" "n" .IDLE 0 0).1) "a" = some e ∧ e.observation_mode = false := by
  refine ⟨?_, ?_, ?_⟩
  · exact (observed_flag_behaviour (recordHeartbeat HeartbeatStore.empty "a" "n" .IDLE 0 0).1
      "a" "n" 0 .IDLE 0 0).1 ⟨"a", "n", .IDLE, 0, 0, 0, 1, false, none, none⟩ (by decide)
  · exact (observed_flag_behaviour
      (enableObservation (recordHeartbeat HeartbeatStore.empty "a" "n" .IDLE 0 0).1 "a" 0)
      "a" "n" 0 .IDLE 0 0).2.1 ⟨"a", "n", .IDLE, 0, 0, 0, 1, true, none, none⟩
      (by decide) (by decide)
  · exact (observed_flag_behaviour (enableObservation HeartbeatStore.empty "a" 0)
      "a" "n" 0 .IDLE 0 0).2.2 (by decide)

/-! ### Scanner lemmas for C5 -/

/-- `countOcc` distributes over append. -/
theorem countOcc_append (a : String) (l1 l2 : List String) :
    countOcc a (l1 ++ l2) = countOcc a l1 + countOcc a l2 := by
  induction l1 with
  | nil => simp [countOcc]
  | cons b rest ih => simp [countOcc, ih]; omega

/-- Membership of the alerted set produced by the alerting loop. -/
theorem alertUnhealthy_fst_mem (a : String) :
    ∀ (us : List HeartbeatEntry) (al : List String),
      (a ∈ (alertUnhealthy us al).1 ↔ a ∈ al ∨ a ∈ us.map (fun e => e.agent_uuid)) := by
  intro us
  induction us with
  | nil => intro al; simp [alertUnhealthy]
  | cons e rest ih =>
    intro al
    by_cases hmem : e.agent_uuid ∈ al
    · rw [alertUnhealthy]
      simp only [if_pos hmem, ih al, List.map_cons, List.mem_cons]
      constructor
      · rintro (h | h)
        · exact Or.inl h
        · exact Or.inr (Or.inr h)
      · rintro (h | h | h)
        · exact Or.inl h
        · exact Or.inl (h ▸ hmem)
        · exact Or.inr h
    · rw [alertUnhealthy]
      simp only [if_neg hmem, ih (e.agent_uuid :: al), List.map_cons, List.mem_cons]
      tauto

/-- The alerting loop dispatches an AGENT_DEATH for `a` exactly once when
`a` is among the unhealthy uuids and not yet in the alerted set, never
otherwise. -/
theorem alertUnhealthy_snd_count (a : String) :
    ∀ (us : List HeartbeatEntry) (al : List String),
      countOcc a (alertUnhealthy us al).2
        = if a ∈ us.map (fun e => e.agent_uuid) ∧ a ∉ al then 1 else 0 := by
  intro us
  induction us with
  | nil => intro al; simp [alertUnhealthy, countOcc]
  | cons e rest ih =>
    intro al
    by_cases hmem : e.agent_uuid ∈ al
    · rw [alertUnhealthy]
      simp only [if_pos hmem, ih al, List.map_cons, List.mem_cons]
      by_cases hal : a ∈ al
      · simp [hal]
      · by_cases haeq : a = e.agent_uuid
        · exact absurd (haeq ▸ hmem) hal
        · simp [hal, haeq]
    · rw [alertUnhealthy]
      simp only [if_neg hmem, countOcc, ih (e.agent_uuid :: al), List.map_cons,
        List.mem_cons]
      by_cases haeq : a = e.agent_uuid
      · have hnal : a ∉ al := haeq ▸ hmem
        simp [haeq, hnal, hmem]
      · have hne : ¬(e.agent_uuid = a) := fun h => haeq h.symm
        by_cases hal : a ∈ al
        · simp [hne, haeq, hal]
        · simp [hne, haeq, hal]

/-- Membership of the alerted set after the recovery-clearing loop. -/
theorem clearRecovered_mem (a : String) (agents : List HeartbeatEntry) (now : Int)
    (al : List String) :
    a ∈ clearRecovered agents now al
      ↔ a ∈ al ∧ ¬∃ e ∈ agents, isHealthy e now = true ∧ e.agent_uuid = a := by
  simp [clearRecovered, List.mem_filter]

/-- The unhealthy snapshot the scanner reads is the filter of the entries
over the failing health verdict. -/
theorem zombieCheck_unhealthy_eq (agents : List HeartbeatEntry) (now : Int) :
    getUnhealthyAgents ⟨agents.map (fun e => (e.agent_uuid, e)), []⟩ now
      = agents.filter (fun e => !(isHealthy e now)) := by
  have hmap : ∀ l : List HeartbeatEntry,
      (l.map (fun e => (e.agent_uuid, e))).map (fun p => p.2) = l := by
    intro l
    induction l with
    | nil => rfl
    | cons e rest ih => simp only [List.map_cons, ih]
  simp [getUnhealthyAgents, hmap]

/-- A scan where `a` is unhealthy and not yet suppressed dispatches exactly
one death alert for `a` and adds it to the suppression set. -/
theorem zombieCheck_unhealthy_fresh (a : String) (agents : List HeartbeatEntry)
    (now : Int) (al : List String)
    (hu : agentUnhealthyIn a agents now) (hal : a ∉ al) :
    countOcc a (zombieCheck agents now al).2 = 1 ∧ a ∈ (zombieCheck agents now al).1 := by
  obtain ⟨⟨e, he, heq⟩, hall⟩ := hu
  have hue : e ∈ agents.filter (fun e => !(isHealthy e now)) := by
    simp [List.mem_filter, he, hall e he heq]
  have humap : a ∈ (agents.filter (fun e => !(isHealthy e now))).map
      (fun e => e.agent_uuid) := List.mem_map.mpr ⟨e, hue, heq⟩
  constructor
  · rw [zombieCheck]
    simp only [zombieCheck_unhealthy_eq]
    rw [alertUnhealthy_snd_count]
    simp [humap, hal]
  · rw [zombieCheck]
    simp only [zombieCheck_unhealthy_eq]
    rw [clearRecovered_mem]
    refine ⟨(alertUnhealthy_fst_mem a _ al).mpr (Or.inr humap), ?_⟩
    rintro ⟨e', he', hh, heq'⟩
    have := hall e' he' heq'
    rw [this] at hh
    exact Bool.false_ne_true hh

/-- A scan where `a` is unhealthy but already suppressed dispatches nothing
for `a` and keeps it in the suppression set. -/
theorem zombieCheck_unhealthy_already (a : String) (agents : List HeartbeatEntry)
    (now : Int) (al : List String)
    (hu : agentUnhealthyIn a agents now) (hal : a ∈ al) :
    countOcc a (zombieCheck agents now al).2 = 0 ∧ a ∈ (zombieCheck agents now al).1 := by
  obtain ⟨_, hall⟩ := hu
  constructor
  · rw [zombieCheck]
    simp only [zombieCheck_unhealthy_eq]
    rw [alertUnhealthy_snd_count]
    simp [hal]
  · rw [zombieCheck]
    simp only [zombieCheck_unhealthy_eq]
    rw [clearRecovered_mem]
    refine ⟨(alertUnhealthy_fst_mem a _ al).mpr (Or.inl hal), ?_⟩
    rintro ⟨e', he', hh, heq'⟩
    have := hall e' he' heq'
    rw [this] at hh
    exact Bool.false_ne_true hh

/-- A scan where `a`'s health verdict is true dispatches nothing for `a`
and removes it from the suppression set. -/
theorem zombieCheck_healthy (a : String) (agents : List HeartbeatEntry)
    (now : Int) (al : List String) (hh : agentHealthyIn a agents now) :
    countOcc a (zombieCheck agents now al).2 = 0 ∧ a ∉ (zombieCheck agents now al).1 := by
  obtain ⟨⟨e, he, heq⟩, hall⟩ := hh
  have hnmap : a ∉ (agents.filter (fun e => !(isHealthy e now))).map
      (fun e => e.agent_uuid) := by
    rw [List.mem_map]
    rintro ⟨e', he', heq'⟩
    rw [List.mem_filter] at he'
    have := hall e' he'.1 heq'
    rw [this] at he'
    simp at he'
  constructor
  · rw [zombieCheck]
    simp only [zombieCheck_unhealthy_eq]
    rw [alertUnhealthy_snd_count]
    simp [hnmap]
  · rw [zombieCheck]
    simp only [zombieCheck_unhealthy_eq]
    rw [clearRecovered_mem]
    rintro ⟨-, hno⟩
    exact hno ⟨e, he, hall e he heq, heq⟩

/-- Across scans in which `a` stays unhealthy and starts suppressed, no
further alert for `a` is dispatched and it stays suppressed. -/
theorem runChecks_unhealthy_already (a : String) :
    ∀ (scans : List Scan) (al : List String),
      (∀ s ∈ scans, agentUnhealthyIn a s.agents s.now) → a ∈ al →
      countOcc a (runChecks scans al).2 = 0 ∧ a ∈ (runChecks scans al).1 := by
  intro scans
  induction scans with
  | nil => intro al _ hal; exact ⟨rfl, hal⟩
  | cons s rest ih =>
    intro al hall hal
    have hs := zombieCheck_unhealthy_already a s.agents s.now al
      (hall s (by simp)) hal
    have hr := ih (zombieCheck s.agents s.now al).1
      (fun s' hs' => hall s' (by simp [hs'])) hs.2
    rw [runChecks]
    constructor
    · rw [countOcc_append, hs.1, hr.1]
    · exact hr.2

/-- Across a non-empty run of scans in which `a` stays unhealthy and starts
unsuppressed, exactly one alert for `a` is dispatched and `a` ends
suppressed. -/
theorem runChecks_outage (a : String) (scans : List Scan) (al : List String)
    (hne : scans ≠ []) (hall : ∀ s ∈ scans, agentUnhealthyIn a s.agents s.now)
    (hal : a ∉ al) :
    countOcc a (runChecks scans al).2 = 1 ∧ a ∈ (runChecks scans al).1 := by
  cases scans with
  | nil => exact absurd rfl hne
  | cons s rest =>
    have hs := zombieCheck_unhealthy_fresh a s.agents s.now al (hall s (by simp)) hal
    have hr := runChecks_unhealthy_already a rest (zombieCheck s.agents s.now al).1
      (fun s' hs' => hall s' (by simp [hs'])) hs.2
    rw [runChecks]
    constructor
    · rw [countOcc_append, hs.1, hr.1]
    · exact hr.2

/-- **C5** — for an agent not under an open alert, a continuous outage of
N ≥ 1 consecutive scans dispatches exactly one AGENT_DEATH alert and adds
the agent to the suppression set; a later scan finding the agent healthy
dispatches nothing and removes it from the set; a subsequent outage then
dispatches exactly one new alert. -/
theorem agent_death_once_per_outage (al0 : List String) (a : String)
    (outage1 : List Scan) (recovery : Scan) (outage2 : List Scan)
    (h0 : a ∉ al0) (h1ne : outage1 ≠ [])
    (h1 : ∀ s ∈ outage1, agentUnhealthyIn a s.agents s.now)
    (hr : agentHealthyIn a recovery.agents recovery.now)
    (h2ne : outage2 ≠ [])
    (h2 : ∀ s ∈ outage2, agentUnhealthyIn a s.agents s.now) :
    countOcc a (runChecks outage1 al0).2 = 1
    ∧ a ∈ (runChecks outage1 al0).1
    ∧ countOcc a (zombieCheck recovery.agents recovery.now (runChecks outage1 al0).1).2 = 0
    ∧ a ∉ (zombieCheck recovery.agents recovery.now (runChecks outage1 al0).1).1
    ∧ countOcc a (runChecks outage2
        (zombieCheck recovery.agents recovery.now (runChecks outage1 al0).1).1).2 = 1 := by
  have ho1 := runChecks_outage a outage1 al0 h1ne h1 h0
  have hrc := zombieCheck_healthy a recovery.agents recovery.now
    (runChecks outage1 al0).1 hr
  have ho2 := runChecks_outage a outage2
    (zombieCheck recovery.agents recovery.now (runChecks outage1 al0).1).1 h2ne h2 hrc.2
  exact ⟨ho1.1, ho1.2, hrc.1, hrc.2, ho2.1⟩

/-- **C5 witness** — an IDLE agent last seen at t=0 scanned at t=70000 and
t=80000 (unhealthy twice) triggers one alert; after a report at t=90000 the
scan at t=90000 clears it; a scan at t=200000 (unhealthy again) triggers
exactly one new alert. -/
theorem agent_death_once_per_outage_witness :
    countOcc "a" (runChecks [⟨[entryBad], 70000⟩, ⟨[entryBad], 80000⟩] []).2 = 1
    ∧ countOcc "a" (runChecks [⟨[entryGood], 200000⟩]
        (zombieCheck [entryGood] 90000
          (runChecks [⟨[entryBad], 70000⟩, ⟨[entryBad], 80000⟩] []).1).1).2 = 1 := by
  have h := agent_death_once_per_outage [] "a"
    [⟨[entryBad], 70000⟩, ⟨[entryBad], 80000⟩]
    ⟨[entryGood], 90000⟩
    [⟨[entryGood], 200000⟩]
    (by simp) (by simp)
    (by
      intro s hs
      simp only [List.mem_cons, List.mem_singleton] at hs
      rcases hs with rfl | rfl | h
      · exact ⟨⟨entryBad, by simp, rfl⟩,
          by intro e he _; simp at he; subst he; decide⟩
      · exact ⟨⟨entryBad, by simp, rfl⟩,
          by intro e he _; simp at he; subst he; decide⟩
      · simp at h)
    (⟨⟨entryGood, by simp, rfl⟩, by intro e he _; simp at he; subst he; decide⟩)
    (by simp)
    (by
      intro s hs
      simp only [List.mem_singleton] at hs
      subst hs
      exact ⟨⟨entryGood, by simp, rfl⟩,
        by intro e he _; simp at he; subst he; decide⟩)
  exact ⟨h.1, h.2.2.2.2⟩

end PapHeartbeat
